import Mathlib

/-!
Verification of `crunchbase_orgs/load_organizations.py`.

The Python source is shallowly embedded below.  Strings are modelled as
Lean `String`s (lists of characters); all inputs of interest are ASCII, so
`Char.toLower` agrees with Python's `str.lower`.  Each definition mirrors
one Python function of the `LoadOrganizations` class and keeps its name.
Lazily loaded reference data (`self.tlds`, `self.isp_domains`) is passed
as an explicit parameter, and the mutable counters of the class are
gathered in an explicit statistics record.
-/

/-- Python `str.lower` (ASCII). -/
def pyLower (s : String) : String := String.mk (s.data.map Char.toLower)

/-- Whitespace characters stripped by Python `str.strip()` (ASCII subset). -/
def pyIsSpace (c : Char) : Bool := c = ' ' || c = '\t' || c = '\n' || c = '\r'

/-- Python `str.strip()`. -/
def pyStrip (s : String) : String :=
  String.mk (((s.data.dropWhile pyIsSpace).reverse.dropWhile pyIsSpace).reverse)

/-- Python `str.rstrip(c)` for a single character: drop every trailing `c`. -/
def pyRstrip (c : Char) (s : String) : String :=
  String.mk ((s.data.reverse.dropWhile (fun x => x = c)).reverse)

/-- Python `str.replace(' ', '')`: remove every space. -/
def pyRemoveSpaces (s : String) : String :=
  String.mk (s.data.filter (fun c => !(c = ' ')))

/-- Does `s` start with the pattern `pat`? (`pat` is the first argument.) -/
def listStarts : List Char → List Char → Bool
  | [], _ => true
  | _ :: _, [] => false
  | a :: as, b :: bs => a = b && listStarts as bs

/-- Python `s.startswith(pat)`. -/
def pyStartsWith (s pat : String) : Bool := listStarts pat.data s.data

/-- Does the list contain `pat` as a contiguous run? -/
def listHasSub (pat : List Char) : List Char → Bool
  | [] => listStarts pat []
  | c :: t => listStarts pat (c :: t) || listHasSub pat t

/-- Python `pat in s` (substring test). -/
def pyIn (pat s : String) : Bool := listHasSub pat.data s.data

/-- Python `str.rfind(c)`: index of the rightmost occurrence, `-1` if absent. -/
def listRfind (c : Char) : List Char → Int
  | [] => -1
  | x :: xs =>
    let r := listRfind c xs
    if r ≥ 0 then r + 1 else if x = c then 0 else -1

/-- Python `s.split(sep)` for a one-character separator: splits at every
occurrence, keeps empty segments, and yields `[""]` on the empty string. -/
def splitCharAux (sep : Char) : List Char → List Char → List String
  | [], acc => [String.mk acc.reverse]
  | c :: rest, acc =>
    if c = sep then String.mk acc.reverse :: splitCharAux sep rest []
    else splitCharAux sep rest (c :: acc)

/-- Python `s.split(sep)` for a one-character separator. -/
def pySplitChar (sep : Char) (s : String) : List String := splitCharAux sep s.data []

/-- Python `s.split()` (no argument): split on whitespace runs, no empty parts. -/
def wsSplitAux : List Char → List Char → List String
  | [], acc => if acc.isEmpty then [] else [String.mk acc.reverse]
  | c :: rest, acc =>
    if pyIsSpace c then
      if acc.isEmpty then wsSplitAux rest []
      else String.mk acc.reverse :: wsSplitAux rest []
    else wsSplitAux rest (c :: acc)

/-- Python `s.split()` (whitespace split). -/
def pyWsSplit (s : String) : List String := wsSplitAux s.data []

/-- `LoadOrganizations.get_domain_from(email)` (load_organizations.py:305-323):
take `rfind('@')` and `rfind('.')`; the part after the `@` is the domain when
the `@` has positive index and the rightmost dot lies at least two places
after it; afterwards a (dead, see `c3_theorem`) check nulls the domain when it
still contains an `@`. -/
def get_domain_from (email : String) : Option String :=
  let ats := listRfind '@' email.data
  let dot := listRfind '.' email.data
  let domain : Option String :=
    if ats > 0 ∧ dot > ats + 1 then
      some (String.mk (email.data.drop (ats.toNat + 1)))
    else none
  match domain with
  | some d => if d ≠ "" ∧ pyIn "@" d then none else some d
  | none => none

/-- The `while len(domain_word_list) > 1 and domain_word_list[-1].lower() in
self.tlds: domain_word_list.pop()` loop of `shorten`, acting on the reversed
segment list so that the popped end is the head. -/
def dropTldsRev (tlds : List String) : List String → List String
  | [] => []
  | [x] => [x]
  | x :: y :: rest =>
    if pyLower x ∈ tlds then dropTldsRev tlds (y :: rest) else x :: y :: rest

/-- `LoadOrganizations.shorten(domain)` (load_organizations.py:566-585): strip
trailing dots, split on `.`, pop trailing known TLD segments while more than
one segment remains, and return the last remaining segment (the split of any
string is non-empty, so the Python `else: return ''` branch corresponds to
`getLastD ""` on an empty list and is unreachable). -/
def shorten (tlds : List String) (domain : String) : String :=
  let d := pyRstrip '.' domain
  let wl := pySplitChar '.' d
  let wl2 := (dropTldsRev tlds wl.reverse).reverse
  wl2.getLastD ""

/-- Inner loop of `get_initials`: emit the character following each space. -/
def initialsAux : Char → List Char → List Char
  | _, [] => []
  | prev, c :: rest =>
    (if prev = ' ' then [c] else []) ++ initialsAux c rest

/-- `LoadOrganizations.get_initials(input_string)` (load_organizations.py:1130-1143):
first character plus every character that immediately follows a space. -/
def get_initials (s : String) : String :=
  match s.data with
  | [] => ""
  | c :: rest => String.mk (c :: initialsAux c rest)

/-- Leading run of equal words shared by the two word lists: the count made by
the `while company_word_list[ix] == response_word_list[ix]` loop of
`check_mismatches_are_at_end_of_response_list` (it stops at the first unequal
pair or when either list is exhausted). -/
def leadRun : List String → List String → Nat
  | a :: as, b :: bs => if a = b then leadRun as bs + 1 else 0
  | _, _ => 0

/-- `LoadOrganizations.check_mismatches_are_at_end_of_response_list`
(load_organizations.py:718-733).  `mis` is the (possibly negative) mismatch
count computed by the caller. -/
def check_mismatches_are_at_end_of_response_list
    (company_word_list response_word_list : List String) (mis : Int) : Bool :=
  if company_word_list.isEmpty || response_word_list.isEmpty then false
  else
    let ct := leadRun company_word_list response_word_list
    ct ≠ 0 && (ct : Int) + mis = (response_word_list.length : Int)

/-- `LoadOrganizations.pick_by_matches(ix, response_item, company_word_list)`
(load_organizations.py:668-716).  It re-reads the raw (unstripped) candidate
name, shortens it when it contains a dot, splits both names into lowercase
words, and returns a singleton candidate/index pair when either every
candidate word occurs among the company words (some word matching), or the
mismatching words are exactly the trailing words of the candidate. -/
def pick_by_matches (tlds : List String) (ix : Nat) (rawName : String)
    (company_word_list : List String) : List String × List Nat :=
  let original := rawName
  let response := if listRfind '.' rawName.data ≠ -1 then shorten tlds rawName else rawName
  let rwl := pyWsSplit (pyLower response)
  let ctMatches : Nat := (company_word_list.filter (fun w => w ∈ rwl)).length
  let ctMis : Int := (rwl.length : Int) - (ctMatches : Int)
  if ctMatches ≠ 0 ∧ ctMis = 0 then ([original], [ix])
  else if check_mismatches_are_at_end_of_response_list company_word_list rwl ctMis then
    ([original], [ix])
  else ([], [])

/-- The `for ix, response_item in enumerate(...)` loop of `pick_match`
(load_organizations.py:610-657), with explicit `pick_ix_list` (`pil`) and
`candidate_list` (`cl`) accumulators.  A `break` in the source corresponds to
returning `([ix], [original])` directly; a `continue` (the Venture test)
recurses with the accumulators as updated so far. -/
def pick_match_loop (tlds : List String) (domain : String)
    (company_word_list : List String) :
    Nat → List String → List Nat → List String → List Nat × List String
  | _, [], pil, cl => (pil, cl)
  | ix, rawName :: rest, pil, cl =>
    let original := pyStrip rawName
    let response := if listRfind '.' original.data ≠ -1 then shorten tlds original else original
    if pyLower response = pyLower domain then
      ([ix], [original])
    else
      let addPre : Bool := pyStartsWith (pyLower response) (pyLower domain) && !(cl.contains original)
      let pil1 := if addPre then pil ++ [ix] else pil
      let cl1 := if addPre then cl ++ [original] else cl
      if pyLower (get_initials response) = pyLower domain then
        ([ix], [original])
      else if pyIn "Venture" response && !(pyIn "Venture" domain) then
        pick_match_loop tlds domain company_word_list (ix + 1) rest pil1 cl1
      else
        let rns := pyRemoveSpaces (pyLower response)
        if rns = pyLower domain then
          ([ix], [original])
        else
          let addNs : Bool := pyStartsWith rns (pyLower domain) && !(cl1.contains original)
          let pil2 := if addNs then pil1 ++ [ix] else pil1
          let cl2 := if addNs then cl1 ++ [original] else cl1
          let tmp := pick_by_matches tlds ix rawName company_word_list
          let cl3 := tmp.1.foldl (fun acc item => if item ∈ acc then acc else acc ++ [item]) cl2
          let pil3 := tmp.2.foldl (fun acc item => if item ∈ acc then acc else acc ++ [item]) pil2
          pick_match_loop tlds domain company_word_list (ix + 1) rest pil3 cl3

/-- `LoadOrganizations.pick_match(company, domain, query_response_dict)`
(load_organizations.py:587-666).  `items` is the list of candidate names
(`response_item['properties']['name']` of each item); the result is
`(pick_ix_list[0], candidate_list[0])` when exactly one index was accumulated,
and `none` otherwise.  (If the final `pick_ix_list` were a singleton with an
empty `candidate_list`, Python would raise `IndexError`; `pmInvariant_loop`
below shows this cannot happen.) -/
def pick_match (tlds : List String) (company domain : String)
    (items : List String) : Option (Nat × String) :=
  if company.length < 2 then none
  else
    let company_word_list := pySplitChar ' ' (pyLower company)
    match pick_match_loop tlds domain company_word_list 0 items [] [] with
    | ([i], c :: _) => some (i, c)
    | _ => none

/-- The `while not connected and backoff_multiplier < 5` loop of
`connect_to_cb_or_die` (load_organizations.py:184-205).  `attempt k`
tells whether the `k`-th session-establishment attempt succeeds (`k` is the
current `backoff_multiplier`); the result is the final `connected` flag and
the list of back-off sleeps performed (`backoff * backoff_multiplier` after
each failed attempt).  `fuel` counts the remaining loop iterations
(`5 - backoff_multiplier`). -/
def connectAttempts (attempt : Nat → Bool) (backoff : Nat) :
    Nat → Nat → Bool × List Nat
  | _, 0 => (false, [])
  | mult, fuel + 1 =>
    if attempt mult then (true, [])
    else
      let r := connectAttempts attempt backoff (mult + 1) fuel
      (r.1, backoff * mult :: r.2)

/-- `LoadOrganizations.connect_to_cb_or_die()` (load_organizations.py:184-205):
up to 4 attempts starting at `backoff_multiplier = 1` with `backoff = 30`;
when still unconnected the process calls `sys.exit(0)`, modelled as exit
status `some 0` (and `none` when the run continues). -/
def connect_to_cb_or_die (attempt : Nat → Bool) : Bool × List Nat × Option Nat :=
  let r := connectAttempts attempt 30 1 4
  (r.1, r.2, if r.1 then none else some 0)

/-- One source record of the pipeline, together with the oracle answers of the
external provider: the number of items of the domain-query response and, when
that is zero, of the name-query response. -/
structure SrcRecord where
  email : String
  domainHits : Nat
  nameHits : Nat
deriving DecidableEq, Repr

/-- The counters of `LoadOrganizations` that the driver loop mutates
(load_organizations.py:68-88), together with the `domains_queried` cache. -/
structure RunStats where
  itemsExamined : Nat := 0
  itemsSkipped : Nat := 0
  itemsNotSkipped : Nat := 0
  ctIsps : Nat := 0
  domainMisses : Nat := 0
  singleDomainHits : Nat := 0
  multipleDomainHits : Nat := 0
  repeatDomains : Nat := 0
  nameMisses : Nat := 0
  singleNameHits : Nat := 0
  multipleNameHits : Nat := 0
  ctNameQueries : Nat := 0
  domainsQueried : List String := []
deriving DecidableEq, Repr

/-- The all-zero statistics a run starts from. -/
def initStats : RunStats := {}

/-- `LoadOrganizations.tally_domain_hits(response_length)`
(load_organizations.py:735-747). -/
def tally_domain_hits (st : RunStats) (n : Nat) : RunStats :=
  if n ≠ 0 then
    if n = 1 then { st with singleDomainHits := st.singleDomainHits + 1 }
    else { st with multipleDomainHits := st.multipleDomainHits + 1 }
  else { st with domainMisses := st.domainMisses + 1 }

/-- `LoadOrganizations.tally_name_hits(response_length)`
(load_organizations.py:749-762). -/
def tally_name_hits (st : RunStats) (n : Nat) : RunStats :=
  if n ≠ 0 then
    if n = 1 then { st with singleNameHits := st.singleNameHits + 1 }
    else { st with multipleNameHits := st.multipleNameHits + 1 }
  else { st with nameMisses := st.nameMisses + 1 }

/-- Counter effect of `LoadOrganizations.handle_non_isp_domain`
(load_organizations.py:363-431): repeat domains are only counted; otherwise
the domain is cached, the domain query tallied, and on a domain miss the
name query is performed and tallied. -/
def handle_non_isp_domain (st : RunStats) (domain : String) (r : SrcRecord) :
    RunStats :=
  if domain ∈ st.domainsQueried then
    { st with repeatDomains := st.repeatDomains + 1 }
  else
    let st1 := { st with domainsQueried := domain :: st.domainsQueried }
    let st2 := tally_domain_hits st1 r.domainHits
    if r.domainHits ≠ 0 then st2
    else
      tally_name_hits { st2 with ctNameQueries := st2.ctNameQueries + 1 } r.nameHits

/-- Counter effect of `LoadOrganizations.handle_company_and_email`
(load_organizations.py:285-303): a malformed email is only logged
(`handle_bad_email`, which touches no counter), an ISP domain bumps
`ct_isps`, anything else goes through `handle_non_isp_domain`. -/
def handle_company_and_email (isps : List String) (st : RunStats)
    (r : SrcRecord) : RunStats :=
  match get_domain_from r.email with
  | none => st
  | some d =>
    if d ∈ isps then { st with ctIsps := st.ctIsps + 1 }
    else handle_non_isp_domain st d r

/-- One iteration of the `while` loop of `get_each_license`
(load_organizations.py:143-169) with the hard-coded `start_item = 0`,
`stop_item = inf`: every record is examined and not skipped. -/
def runStep (isps : List String) (st : RunStats) (r : SrcRecord) : RunStats :=
  handle_company_and_email isps
    { st with itemsExamined := st.itemsExamined + 1,
              itemsNotSkipped := st.itemsNotSkipped + 1 } r

/-- A whole pipeline run over a list of source records, starting from the
all-zero statistics. -/
def runPipeline (isps : List String) (records : List SrcRecord) : RunStats :=
  records.foldl (runStep isps) initStats

/-- `LoadOrganizations.report_ok()` (load_organizations.py:1207-1210). -/
def report_ok (st : RunStats) : Bool :=
  (st.itemsExamined : Int) - (st.itemsSkipped : Int) =
    (st.ctIsps : Int) + (st.domainMisses : Int) + (st.singleDomainHits : Int) +
    (st.multipleDomainHits : Int) + (st.repeatDomains : Int)

/-- The `properties` object of one Crunchbase response item, as read by
`store_one_response` and `setup_data_item_org` (load_organizations.py:764-826,
1080-1125).  Every property may be JSON `null` (`none`). -/
structure Props where
  name : Option String
  domain : Option String
  primary_role : Option String
  short_description : Option String
  homepage_url : Option String
  facebook_url : Option String
  twitter_url : Option String
  linkedin_url : Option String
  api_url : Option String
  city_name : Option String
  region_name : Option String
  country_code : Option String
  stock_exchange : Option String
  stock_symbol : Option String
  created_at : Option String
  updated_at : Option String
deriving DecidableEq, Repr

/-- Python truthiness test on an optional string: `None` and `''` are falsy. -/
def pyFalsy : Option String → Bool
  | none => true
  | some s => s = ""

/-- A row of the `pn_organizations` table: the serial `id`, the 16 data
columns `(name, primary_role, short_description, domain, homepage_url,
facebook_url, twitter_url, linkedin_url, api_url, city, region, country,
stock_exchange, stock_symbol, created_at, updated_at)` in insert order, and
the `pgres_last_updated` column. -/
structure OrgRow where
  id : Nat
  vals : List (Option String)
  pgres : Option String
deriving DecidableEq, Repr

/-- The `domain` column of an organization row (position 3 of the insert
column list). -/
def rowDomain (r : OrgRow) : Option String := r.vals.getD 3 none

/-- The `name` column of an organization row (position 0). -/
def rowName (r : OrgRow) : Option String := r.vals.getD 0 none

/-- A row of `pn_license_contact_details` (only the columns this program
reads). -/
structure LicContact where
  id : Nat
  company : Option String
deriving DecidableEq, Repr

/-- A row of `pn_licenses` (only the columns this program touches). -/
structure LicRow where
  licCtId : Nat
  orgId : Option Nat
deriving DecidableEq, Repr

/-- The relational store as seen by the upsert layer. -/
structure DB where
  orgs : List OrgRow
  licContacts : List LicContact
  licenses : List LicRow
  nextOrgId : Nat
deriving DecidableEq, Repr

/-- `LoadOrganizations.setup_data_item_org(single_response)`
(load_organizations.py:1080-1125): the 17-element parameter list of the
INSERT/UPDATE statements, with the domain stripped of trailing slashes and
`self.cur_time` as `pgres_last_updated`; `None` when name or domain is
JSON null. -/
def setup_data_item_org (curTime : String) (p : Props) :
    Option (List (Option String)) :=
  match p.domain, p.name with
  | some _, some _ =>
    some [p.name, p.primary_role, p.short_description,
          p.domain.map (pyRstrip '/'), p.homepage_url, p.facebook_url,
          p.twitter_url, p.linkedin_url, p.api_url, p.city_name,
          p.region_name, p.country_code, p.stock_exchange, p.stock_symbol,
          p.created_at, p.updated_at, some curTime]
  | _, _ => none

/-- `LoadOrganizations.get_already_stored(pg_conn)`
(load_organizations.py:842-857): `SELECT domain FROM pn_organizations`. -/
def get_already_stored (db : DB) : List (Option String) := db.orgs.map rowDomain

/-- `LoadOrganizations.do_store_part_1(conn, data_item_org)`
(load_organizations.py:859-890): INSERT the 17 values into
`pn_organizations`; the new row receives the next serial id; returns the
updated store and the rowcount (1, since `data_item_org` is non-empty on
every call site). -/
def do_store_part_1 (db : DB) (d : List (Option String)) : DB × Int :=
  let row : OrgRow := ⟨db.nextOrgId, d.take 16, d.getD 16 none⟩
  ({ db with orgs := db.orgs ++ [row], nextOrgId := db.nextOrgId + 1 }, 1)

/-- `LoadOrganizations.get_organization_id(conn, single_response)`
(load_organizations.py:947-965): `SELECT id FROM pn_organizations WHERE
name = %s`, `fetchone` (the first matching row). -/
def get_organization_id (db : DB) (p : Props) : Option Nat :=
  (db.orgs.find? (fun r => rowName r = p.name)).map (fun r => r.id)

/-- `LoadOrganizations.get_license_contact_details_id_list(conn, company)`
(load_organizations.py:967-982): ids of every `pn_license_contact_details`
row whose `company` column equals the source company. -/
def get_license_contact_details_id_list (db : DB) (company : String) :
    List Nat :=
  (db.licContacts.filter (fun c => c.company = some company)).map
    (fun c => c.id)

/-- `LoadOrganizations.do_store_part_2(conn, org_id, lic_ct_id)`
(load_organizations.py:984-1003): `UPDATE pn_licenses SET organizations_id =
%s WHERE license_contact_details_id = %s`; returns the updated store and the
rowcount. -/
def do_store_part_2 (db : DB) (orgId : Option Nat) (licCtId : Nat) :
    DB × Int :=
  let n := (db.licenses.filter (fun l => l.licCtId = licCtId)).length
  ({ db with licenses := db.licenses.map (fun l =>
      if l.licCtId = licCtId then { l with orgId := orgId } else l) }, (n : Int))

/-- The subquery of `remove_company_from_orgs` (load_organizations.py:1015-1018):
`SELECT DISTINCT l.organizations_id FROM pn_organizations o2 LEFT JOIN
pn_licenses l ON l.organizations_id = o2.id WHERE o2.name = %s`. -/
def linkSubquery (db : DB) (nm : Option String) : List (Option Nat) :=
  ((db.orgs.filter (fun o => rowName o = nm)).flatMap (fun o =>
    let ls := db.licenses.filter (fun l => l.orgId = some o.id)
    if ls.isEmpty then [(none : Option Nat)] else ls.map (fun l => l.orgId))).dedup

/-- SQL `(subquery) IS NULL` for a scalar subquery: `NULL` (hence true) on
zero rows, the value's null test on one row, and a run-time error (`none`)
on more than one row. -/
def scalarIsNull : List (Option Nat) → Option Bool
  | [] => some true
  | [v] => some (v = none)
  | _ => none

/-- `LoadOrganizations.remove_company_from_orgs(conn, company)`
(load_organizations.py:1005-1033): delete every organization row with the
given name provided the link subquery is NULL; returns the rowcount, or `-1`
when nothing was deleted.  `none` models an uncaught SQL error. -/
def remove_company_from_orgs (db : DB) (nm : Option String) :
    Option (DB × Int) :=
  match scalarIsNull (linkSubquery db nm) with
  | none => none
  | some b =>
    if b then
      let deleted := (db.orgs.filter (fun o => rowName o = nm)).length
      let db2 := { db with orgs := db.orgs.filter (fun o => !(rowName o = nm)) }
      some (db2, if deleted ≠ 0 then (deleted : Int) else -1)
    else some (db, -1)

/-- `LoadOrganizations.is_item_different(cursor, data_item_org_augmented)`
(load_organizations.py:938-945): fetch the row whose domain equals
`data_item_org_augmented[3]` and compare its columns without id and
`pgres_last_updated` (`cursor_result[1:-1]`) against
`data_item_org_augmented[:-2]`.  `none` models the uncaught `TypeError`
raised when no row matches. -/
def is_item_different (db : DB) (aug : List (Option String)) : Option Bool :=
  match db.orgs.find? (fun r => rowDomain r = aug.getD 3 none) with
  | none => none
  | some r => some (!(r.vals = aug.take 16))

/-- `LoadOrganizations.do_update(conn, data_item_org)`
(load_organizations.py:892-936): when the stored row differs, update every
row with the item's domain and count the update; returns the updated store,
the rowcount, the `ct_stored` increment (`rowcount == 1`), and the number of
UPDATE statements executed. -/
def do_update (db : DB) (d : List (Option String)) :
    Option (DB × Int × Nat × Nat) :=
  let aug := d ++ [d.getD 3 none]
  match is_item_different db aug with
  | none => none
  | some changed =>
    if changed then
      let n := (db.orgs.filter (fun r => rowDomain r = d.getD 3 none)).length
      let db2 := { db with orgs := db.orgs.map (fun r =>
          if rowDomain r = d.getD 3 none then
            { r with vals := d.take 16, pgres := d.getD 16 none }
          else r) }
      some (db2, (n : Int), if (n : Int) = 1 then 1 else 0, 1)
    else some (db, 0, 0, 0)

/-- Outcome of one `store_one_response` call: the resulting store, the
returned truth value, the `ct_stored` increment, and how many connections,
INSERTs into `pn_organizations`, UPDATEs of `pn_organizations`, UPDATEs of
`pn_licenses` and DELETEs were performed. -/
structure StoreResult where
  db : DB
  ret : Bool
  ctStoredDelta : Nat
  connOpened : Nat
  inserts : Nat
  orgUpdates : Nat
  licUpdates : Nat
  deletes : Nat
deriving DecidableEq, Repr

/-- `LoadOrganizations.store_one_response(single_response, company)`
(load_organizations.py:764-840).  Falsy name or domain returns `False`
before any connection is opened; otherwise a domain already stored goes to
`do_update` (whose result is always reported as `False`, since
`updated_part_2` is never set), and a new domain is inserted, linked when
exactly one license-contact row matches the company, and deleted again when
linking is impossible or the link update touches no row.  `none` models an
uncaught exception. -/
def store_one_response (db : DB) (p : Props) (company : String)
    (curTime : String) : Option StoreResult :=
  if pyFalsy p.name || pyFalsy p.domain then
    some ⟨db, false, 0, 0, 0, 0, 0, 0⟩
  else
    match setup_data_item_org curTime p with
    | none => none
    | some d =>
      if d.getD 3 none ∈ get_already_stored db then
        match do_update db d with
        | none => none
        | some (db2, _rowcount, ctDelta, upd) =>
          some ⟨db2, false, ctDelta, 1, 0, upd, 0, 0⟩
      else
        let s1 := do_store_part_1 db d
        let db1 := s1.1
        let orgId := get_organization_id db1 p
        let licIds := get_license_contact_details_id_list db1 company
        if licIds.length = 1 then
          let s2 := do_store_part_2 db1 orgId (licIds.getD 0 0)
          let db2 := s2.1
          if s2.2 ≠ 0 then
            some ⟨db2, true, 1, 1, 1, 0, 1, 0⟩
          else
            match remove_company_from_orgs db2 p.name with
            | none => none
            | some (db3, _) => some ⟨db3, false, 0, 1, 1, 0, 1, 1⟩
        else
          match remove_company_from_orgs db1 p.name with
          | none => none
          | some (db3, _) => some ⟨db3, false, 0, 1, 1, 0, 0, 1⟩

/-- Claim C3 (code bug): the email `"a@b@c.com"` contains two `@` signs, yet
`get_domain_from` returns `some "c.com"` instead of the `None` the claim (and
the source comment `# check for 2nd '@' in address`) demands: the check
inspects only the substring after the rightmost `@`, which can never contain
another `@`. -/
theorem c3_theorem : get_domain_from "a@b@c.com" = some "c.com" := by decide

/-- Claim C6 (code bug): when every session-establishment attempt fails,
`connect_to_cb_or_die` retries with back-off delays `30*1, 30*2, 30*3, 30*4`
(base times attempt, 4 attempts) and then terminates the run — but via
`sys.exit(0)`, so the process exit status is 0, not the nonzero status the
claim reserves for fatal failures. -/
theorem c6_theorem :
    connect_to_cb_or_die (fun _ => false) = (false, [30, 60, 90, 120], some 0) := by
  decide

/-- Claim C1 (counterexample): a run over a single record whose email is
malformed (no `@`) leaves `items_examined = 1` while no tally on the right
side of the invariant is incremented (`handle_bad_email` only logs, and
`items_skipped` counts only records before the hard-coded `start_item = 0`),
so `report_ok` is false after such a run. -/
theorem c1_counterexample :
    report_ok (runPipeline [] [⟨"bad-email", 0, 0⟩]) = false := by decide

/-- Claim C2 (counterexample): with source domain token `"acme"` and the sole
candidate `"Acme Ventures"`, `pick_match` selects `"Acme Ventures"`: the
case-insensitive prefix rule adds the candidate before the Venture test is
reached, so the Venture exclusion does not skip the candidate entirely. -/
theorem c2_counterexample :
    pick_match [] "Zz" "acme" ["Acme Ventures"] = some (0, "Acme Ventures") := by
  decide

/-- Claim C2 (amended): a candidate containing `"Venture"` when the source
domain token does not is excluded only from the rules evaluated after the
Venture test (space-stripped comparison and word overlap) — it is not
selected via word overlap even when its name equals the source company name —
but it can still be accumulated and selected by the earlier case-insensitive
prefix rule, as `"Acme Ventures"` with token `"acme"` is. -/
theorem c2_theorem :
    pick_match [] "Qq" "acme" ["Acme Ventures"] = some (0, "Acme Ventures") ∧
    pick_match [] "Acme Ventures" "zzzz" ["Acme Ventures"] = none := by
  exact ⟨by decide, by decide⟩

/-- Claim C5 (counterexample): a candidate whose space-stripped lowercase
shortened name `"acme"` *equals* the source domain token `"acme"` is an
immediate win that short-circuits the scan: `"A cme"` is selected although
the later candidate `"Acme Corp"` would also have been accumulated by the
prefix rule (under the claimed accumulate-only semantics the result would
have been `none`). -/
theorem c5_counterexample :
    pick_match [] "Zz" "acme" ["A cme", "Acme Corp"] = some (0, "A cme") := by
  decide

/-- Claim C5 (amended): space-stripped *equality* with the source domain is an
immediate, scan-stopping win, while a space-stripped *strict prefix* match is
only an accumulation — it wins alone but loses to a second accumulated
candidate. -/
theorem c5_theorem :
    pick_match [] "Qq" "acme" ["A cme", "Acme Corp"] = some (0, "A cme") ∧
    pick_match [] "Qq" "acme" ["A cmex"] = some (0, "A cmex") ∧
    pick_match [] "Qq" "acme" ["A cmex", "Acme Corp"] = none := by
  refine ⟨by decide, by decide, by decide⟩

/-- Claim C4 (counterexample): for candidates `["Acme Corp", "Acme Corp"]`
(the same literal name twice), company `"Acme Corp"` and token `"acme"`, the
scan accumulates exactly one distinct candidate name but two indices (the
word-overlap merge deduplicates by index, not by name), and `pick_match`
returns `none` although the claim requires the single distinct accumulated
candidate to be the resolved match. -/
theorem c4_counterexample :
    pick_match_loop [] "acme" (pySplitChar ' ' (pyLower "Acme Corp")) 0
        ["Acme Corp", "Acme Corp"] [] [] = ([0, 1], ["Acme Corp"]) ∧
    pick_match [] "Acme Corp" "acme" ["Acme Corp", "Acme Corp"] = none := by
  exact ⟨by decide, by decide⟩

/-- Claim C7 (counterexample): with TLD set `{"com"}` and input `"com"`,
every segment (including the last) matches a known TLD, yet `shorten`
returns `"com"`, not the empty string the claim demands: the pop loop runs
only while more than one segment remains. -/
theorem c7_counterexample : shorten ["com"] "com" = "com" := by decide

/-- The arithmetic relation `report_ok` checks, as an invariant on the raw
counters. -/
def tallyInv (st : RunStats) : Prop :=
  st.itemsExamined = st.ctIsps + st.domainMisses + st.singleDomainHits +
    st.multipleDomainHits + st.repeatDomains + st.itemsSkipped

lemma tallyInv_step (isps : List String) (st : RunStats) (r : SrcRecord)
    (hr : get_domain_from r.email ≠ none) (h : tallyInv st) :
    tallyInv (runStep isps st r) := by
  rcases hd : get_domain_from r.email with _ | d
  · exact absurd hd hr
  · unfold tallyInv at h
    unfold runStep handle_company_and_email
    rw [hd]
    simp only [tallyInv]
    unfold handle_non_isp_domain tally_domain_hits tally_name_hits
    split_ifs <;> simp_all <;> omega

lemma tallyInv_foldl (isps : List String) (records : List SrcRecord) :
    ∀ st : RunStats, (∀ r ∈ records, get_domain_from r.email ≠ none) →
      tallyInv st → tallyInv (records.foldl (runStep isps) st) := by
  induction records with
  | nil => intro st _ h; exact h
  | cons r rs ih =>
    intro st hr h
    simp only [List.foldl_cons]
    exact ih _ (fun x hx => hr x (List.mem_cons_of_mem _ hx))
      (tallyInv_step isps st r (hr r (List.mem_cons_self _ _)) h)

/-- Claim C1 (amended): the tally invariant `examined − skipped == isps +
domainMisses + singleHits + multiHits + repeatDomains` (`report_ok`) holds
after every run in which each source record's email yields a usable domain.
A record with a malformed email is only logged — it is *not* counted as
skipped — so it increments `examined` alone and breaks the invariant
(`c1_counterexample`). -/
theorem c1_theorem (isps : List String) (records : List SrcRecord)
    (h : ∀ r ∈ records, get_domain_from r.email ≠ none) :
    report_ok (runPipeline isps records) = true := by
  have hinv : tallyInv (runPipeline isps records) :=
    tallyInv_foldl isps records initStats h rfl
  unfold tallyInv at hinv
  simp only [report_ok, decide_eq_true_eq]
  omega

/-- Claim C1 witness data: a one-record run with a well-formed email. -/
theorem c1_witness :
    (∀ r ∈ [(⟨"a@b.com", 1, 0⟩ : SrcRecord)], get_domain_from r.email ≠ none) ∧
    report_ok (runPipeline [] [⟨"a@b.com", 1, 0⟩]) = true :=
  ⟨by decide, c1_theorem [] [⟨"a@b.com", 1, 0⟩] (by decide)⟩

/-- Claim C10: a falsy (`None` or empty) candidate name or domain makes
`store_one_response` return `False` immediately: no connection is opened, the
store is untouched, and no write or tally increment happens. -/
theorem c10_theorem (db : DB) (p : Props) (company curTime : String)
    (h : pyFalsy p.name = true ∨ pyFalsy p.domain = true) :
    store_one_response db p company curTime =
      some ⟨db, false, 0, 0, 0, 0, 0, 0⟩ := by
  unfold store_one_response
  rcases h with h | h <;> simp [h]

/-- Claim C10 witness data: a response whose name is the empty string. -/
theorem c10_witness :
    (pyFalsy (some "") = true ∨
      pyFalsy (some "acme.com") = true) ∧
    store_one_response ⟨[], [], [], 1⟩
      ⟨some "", some "acme.com", none, none, none, none, none, none, none,
       none, none, none, none, none, none, none⟩ "Acme" "t1" =
      some ⟨⟨[], [], [], 1⟩, false, 0, 0, 0, 0, 0, 0⟩ :=
  ⟨Or.inl (by decide),
   c10_theorem ⟨[], [], [], 1⟩
     ⟨some "", some "acme.com", none, none, none, none, none, none, none,
      none, none, none, none, none, none, none⟩ "Acme" "t1"
     (Or.inl (by decide))⟩

lemma splitCharAux_no_sep (sep : Char) :
    ∀ (l acc : List Char), sep ∉ l →
      splitCharAux sep l acc = [String.mk (acc.reverse ++ l)] := by
  intro l
  induction l with
  | nil => intro acc _; simp [splitCharAux]
  | cons c rest ih =>
    intro acc h
    have hc : ¬(c = sep) := fun hcs => h (hcs ▸ List.mem_cons_self c rest)
    have hrest : sep ∉ rest := fun hm => h (List.mem_cons_of_mem _ hm)
    simp only [splitCharAux, if_neg hc]
    rw [ih (c :: acc) hrest]
    simp

/-- Claim C7 (amended): `shorten` strips trailing dots, splits on `.`, and
drops the last segment while it case-insensitively matches a known TLD *and
more than one segment remains*; the final segment is never dropped, so an
input that is a single segment is returned as-is even when it matches a
known TLD (see `c7_counterexample`), and `shorten "Example.Co.Inc." =
"Example"` with TLD set `{"inc", "co"}`. -/
theorem c7_theorem :
    (∀ (tlds : List String) (d : String),
        '.' ∉ (pyRstrip '.' d).data → shorten tlds d = pyRstrip '.' d) ∧
    shorten ["inc", "co"] "Example.Co.Inc." = "Example" := by
  constructor
  · intro tlds d hd
    show (dropTldsRev tlds
        (splitCharAux '.' (pyRstrip '.' d).data []).reverse).reverse.getLastD "" =
      pyRstrip '.' d
    rw [splitCharAux_no_sep '.' _ [] hd]
    simp [dropTldsRev]
  · decide

/-- Claim C7 witness data: a dotless single-segment domain is unchanged. -/
theorem c7_witness :
    ('.' ∉ (pyRstrip '.' "acme").data) ∧
    shorten ["com"] "acme" = pyRstrip '.' "acme" :=
  ⟨by decide, c7_theorem.1 ["com"] "acme" (by decide)⟩

lemma pick_by_matches_shape (tlds : List String) (ix : Nat) (rawName : String)
    (cwl : List String) :
    pick_by_matches tlds ix rawName cwl = ([rawName], [ix]) ∨
    pick_by_matches tlds ix rawName cwl = ([], []) := by
  unfold pick_by_matches
  simp only
  split_ifs <;> simp

set_option maxHeartbeats 1000000 in
lemma pick_match_loop_nil_inv (tlds : List String) (domain : String)
    (cwl : List String) :
    ∀ (items : List String) (ix : Nat) (pil : List Nat) (cl : List String),
      (cl = [] → pil = []) →
      ((pick_match_loop tlds domain cwl ix items pil cl).2 = [] →
       (pick_match_loop tlds domain cwl ix items pil cl).1 = []) := by
  intro items
  induction items with
  | nil => intro ix pil cl h; simpa [pick_match_loop] using h
  | cons rawName rest ih =>
    intro ix pil cl h
    rcases pick_by_matches_shape tlds ix rawName cwl with hpm | hpm <;>
      simp only [pick_match_loop, hpm, List.foldl_cons, List.foldl_nil] <;>
      split_ifs <;>
        first
        | (intro hx; exact hx.elim)
        | (apply ih; intro hcl; simp_all)

/-- Claim C4 (amended): after a scan with no decisive exact/initials hit,
`pick_match` resolves exactly when *exactly one candidate index* was
accumulated (`len(pick_ix_list) == 1`): the direct adds deduplicate by
candidate name, but the word-overlap merge deduplicates indices by index, so
two identically named candidates can accumulate two indices and yield `none`
(`c4_counterexample`); in particular two distinct prefix-matching candidates
yield `none`. -/
theorem c4_theorem :
    pick_match [] "Zzzz Qqqq" "acme" ["Acme Corp", "Acme Industries"] = none ∧
    ∀ (tlds : List String) (company domain : String) (items : List String),
      2 ≤ company.length →
      ((∃ i c, pick_match tlds company domain items = some (i, c)) ↔
        (pick_match_loop tlds domain (pySplitChar ' ' (pyLower company)) 0
            items [] []).1.length = 1) := by
  refine ⟨by decide, ?_⟩
  intro tlds company domain items hlen
  have h2 : ¬(company.length < 2) := by omega
  have hinv := pick_match_loop_nil_inv tlds domain
    (pySplitChar ' ' (pyLower company)) items 0 [] [] (fun _ => rfl)
  unfold pick_match
  rw [if_neg h2]
  simp only []
  rcases hloop : pick_match_loop tlds domain (pySplitChar ' ' (pyLower company))
      0 items [] [] with ⟨pil, cl⟩
  rw [hloop] at hinv
  rcases pil with _ | ⟨i, pil2⟩
  · simp
  · rcases pil2 with _ | ⟨j, pil3⟩
    · rcases cl with _ | ⟨c, cs⟩
      · exact absurd (hinv rfl) (by simp)
      · simp
    · simp

/-- Claim C4 witness data: a single prefix-matching candidate. -/
theorem c4_witness :
    2 ≤ ("Acme Corp" : String).length ∧
    ((∃ i c, pick_match [] "Acme Corp" "acme" ["Acme Corp"] = some (i, c)) ↔
      (pick_match_loop [] "acme" (pySplitChar ' ' (pyLower "Acme Corp")) 0
          ["Acme Corp"] [] []).1.length = 1) :=
  ⟨by decide, c4_theorem.2 [] "Acme Corp" "acme" ["Acme Corp"] (by decide)⟩

lemma find?_append_last {α : Type} (p : α → Bool) (l : List α) (x : α)
    (h : ∀ y ∈ l, p y = false) :
    (l ++ [x]).find? p = if p x then some x else none := by
  induction l with
  | nil => cases hx : p x <;> simp [List.find?, hx]
  | cons a as ih =>
    rw [List.cons_append, List.find?_cons_of_neg _ (by simp [h a (List.mem_cons_self a as)])]
    exact ih (fun y hy => h y (List.mem_cons_of_mem a hy))

lemma map_update_id {α : Type} (f : α → α) (q : α → Prop) [DecidablePred q]
    (l : List α) (h : ∀ y ∈ l, ¬ q y) :
    l.map (fun y => if q y then f y else y) = l := by
  induction l with
  | nil => rfl
  | cons a as ih =>
    simp only [List.map_cons, if_neg (h a (List.mem_cons_self a as))]
    rw [ih (fun y hy => h y (List.mem_cons_of_mem a hy))]

lemma remove_freshly_inserted (db : DB) (p : Props) (t1 n dm : String)
    (hname : ∀ r ∈ db.orgs, rowName r ≠ some n) :
    ∀ X : DB, X.orgs = db.orgs ++ [(⟨db.nextOrgId, [some n, p.primary_role, p.short_description,
        some (pyRstrip '/' dm), p.homepage_url, p.facebook_url,
        p.twitter_url, p.linkedin_url, p.api_url, p.city_name,
        p.region_name, p.country_code, p.stock_exchange, p.stock_symbol,
        p.created_at, p.updated_at], some t1⟩ : OrgRow)] →
      (∀ l ∈ X.licenses, l.orgId ≠ some db.nextOrgId) →
      remove_company_from_orgs X (some n) =
        some ({ X with orgs := db.orgs }, 1) := by
  intro X hX hL
  have hfilt1 : (db.orgs ++ [(⟨db.nextOrgId, [some n, p.primary_role, p.short_description,
        some (pyRstrip '/' dm), p.homepage_url, p.facebook_url,
        p.twitter_url, p.linkedin_url, p.api_url, p.city_name,
        p.region_name, p.country_code, p.stock_exchange, p.stock_symbol,
        p.created_at, p.updated_at], some t1⟩ : OrgRow)]).filter
      (fun o => rowName o = some n) = [(⟨db.nextOrgId, [some n, p.primary_role, p.short_description,
        some (pyRstrip '/' dm), p.homepage_url, p.facebook_url,
        p.twitter_url, p.linkedin_url, p.api_url, p.city_name,
        p.region_name, p.country_code, p.stock_exchange, p.stock_symbol,
        p.created_at, p.updated_at], some t1⟩ : OrgRow)] := by
    rw [List.filter_append]
    rw [List.filter_eq_nil_iff.mpr (fun r hr => by simp [hname r hr])]
    simp [rowName]
  have hfilt2 : (db.orgs ++ [(⟨db.nextOrgId, [some n, p.primary_role, p.short_description,
        some (pyRstrip '/' dm), p.homepage_url, p.facebook_url,
        p.twitter_url, p.linkedin_url, p.api_url, p.city_name,
        p.region_name, p.country_code, p.stock_exchange, p.stock_symbol,
        p.created_at, p.updated_at], some t1⟩ : OrgRow)]).filter
      (fun o => !(decide (rowName o = some n))) = db.orgs := by
    rw [List.filter_append]
    rw [List.filter_eq_self.mpr (fun r hr => by simp [hname r hr])]
    simp [rowName]
  have hfilt3 : X.licenses.filter
      (fun l => l.orgId = some db.nextOrgId) = [] :=
    List.filter_eq_nil_iff.mpr (fun l hl => by simp [hL l hl])
  unfold remove_company_from_orgs linkSubquery scalarIsNull
  rw [hX, hfilt1, hfilt2]
  simp only [List.flatMap_cons, List.flatMap_nil]
  rw [show some ((⟨db.nextOrgId, [some n, p.primary_role, p.short_description,
        some (pyRstrip '/' dm), p.homepage_url, p.facebook_url,
        p.twitter_url, p.linkedin_url, p.api_url, p.city_name,
        p.region_name, p.country_code, p.stock_exchange, p.stock_symbol,
        p.created_at, p.updated_at], some t1⟩ : OrgRow)).id = some db.nextOrgId from rfl]
  rw [hfilt3]
  simp


/-- Claim C8: running `store_one_response` twice on the same resolved
candidate with unchanged fields performs no second write: the first run
INSERTs once, links, and bumps `ct_stored`; the second run finds the domain
already stored, `is_item_different` compares the 16 data columns (excluding
`pgres_last_updated`), finds the row identical, skips the UPDATE, leaves the
store untouched, and increments no tally. -/
theorem c8_theorem (db : DB) (p : Props) (company t1 t2 n dm : String)
    (hn : p.name = some n) (hn2 : n ≠ "")
    (hdm : p.domain = some dm) (hdm2 : dm ≠ "")
    (hfresh : ∀ r ∈ db.orgs, rowDomain r ≠ some (pyRstrip '/' dm))
    (hlic : (db.licContacts.filter (fun c => c.company = some company)).length = 1)
    (hlink : (db.licenses.filter (fun l =>
        l.licCtId = (get_license_contact_details_id_list db company).getD 0 0)).length ≠ 0) :
    ∃ res1 res2 : StoreResult,
      store_one_response db p company t1 = some res1 ∧
      res1.ret = true ∧ res1.inserts = 1 ∧ res1.orgUpdates = 0 ∧
      res1.ctStoredDelta = 1 ∧
      store_one_response res1.db p company t2 = some res2 ∧
      res2.db = res1.db ∧ res2.ret = false ∧ res2.ctStoredDelta = 0 ∧
      res2.inserts = 0 ∧ res2.orgUpdates = 0 ∧ res2.licUpdates = 0 ∧
      res2.deletes = 0 := by
  have hguard : (pyFalsy p.name || pyFalsy p.domain) = false := by
    simp [pyFalsy, hn, hdm, hn2, hdm2]
  have hsetup1 : setup_data_item_org t1 p =
      some [some n, p.primary_role, p.short_description,
        some (pyRstrip '/' dm), p.homepage_url, p.facebook_url,
        p.twitter_url, p.linkedin_url, p.api_url, p.city_name,
        p.region_name, p.country_code, p.stock_exchange, p.stock_symbol,
        p.created_at, p.updated_at, some t1] := by
    simp [setup_data_item_org, hdm, hn]
  have hmem1 : ¬ ((some (pyRstrip '/' dm)) ∈ get_already_stored db) := by
    simp only [get_already_stored, List.mem_map, not_exists]
    intro r
    intro hcontra
    exact hfresh r hcontra.1 hcontra.2
  have hsetup2 : setup_data_item_org t2 p =
      some [some n, p.primary_role, p.short_description,
        some (pyRstrip '/' dm), p.homepage_url, p.facebook_url,
        p.twitter_url, p.linkedin_url, p.api_url, p.city_name,
        p.region_name, p.country_code, p.stock_exchange, p.stock_symbol,
        p.created_at, p.updated_at, some t2] := by
    simp [setup_data_item_org, hdm, hn]
  have hgetd : ([some n, p.primary_role, p.short_description,
      some (pyRstrip '/' dm), p.homepage_url, p.facebook_url,
      p.twitter_url, p.linkedin_url, p.api_url, p.city_name,
      p.region_name, p.country_code, p.stock_exchange, p.stock_symbol,
      p.created_at, p.updated_at, some t1] : List (Option String)).getD 3 none =
      some (pyRstrip '/' dm) := rfl
  have hgetd2 : ([some n, p.primary_role, p.short_description,
      some (pyRstrip '/' dm), p.homepage_url, p.facebook_url,
      p.twitter_url, p.linkedin_url, p.api_url, p.city_name,
      p.region_name, p.country_code, p.stock_exchange, p.stock_symbol,
      p.created_at, p.updated_at, some t2] : List (Option String)).getD 3 none =
      some (pyRstrip '/' dm) := rfl
  have hcond1 : ∀ dX : List (Option String),
      (get_license_contact_details_id_list (do_store_part_1 db dX).1 company).length = 1 := by
    intro dX
    simpa [get_license_contact_details_id_list, do_store_part_1] using hlic
  have hcond2 : ∀ (dX : List (Option String)) (oX : Option Nat),
      (do_store_part_2 (do_store_part_1 db dX).1 oX
        ((get_license_contact_details_id_list (do_store_part_1 db dX).1 company).getD 0 0)).2 ≠ 0 := by
    intro dX oX
    simp only [do_store_part_2, do_store_part_1]
    exact_mod_cast hlink
  have hpred : ∀ y ∈ db.orgs,
      (decide (rowDomain y = some (pyRstrip '/' dm))) = false := by
    intro y hy
    simp [hfresh y hy]
  have hupd : ∀ X : DB, X.orgs = db.orgs ++ [(⟨db.nextOrgId, [some n, p.primary_role, p.short_description,
        some (pyRstrip '/' dm), p.homepage_url, p.facebook_url,
        p.twitter_url, p.linkedin_url, p.api_url, p.city_name,
        p.region_name, p.country_code, p.stock_exchange, p.stock_symbol,
        p.created_at, p.updated_at], some t1⟩ : OrgRow)] →
      do_update X [some n, p.primary_role, p.short_description,
        some (pyRstrip '/' dm), p.homepage_url, p.facebook_url,
        p.twitter_url, p.linkedin_url, p.api_url, p.city_name,
        p.region_name, p.country_code, p.stock_exchange, p.stock_symbol,
        p.created_at, p.updated_at, some t2] = some (X, 0, 0, 0) := by
    intro X hX
    unfold do_update is_item_different
    simp only []
    rw [hX]
    rw [show (([some n, p.primary_role, p.short_description,
        some (pyRstrip '/' dm), p.homepage_url, p.facebook_url,
        p.twitter_url, p.linkedin_url, p.api_url, p.city_name,
        p.region_name, p.country_code, p.stock_exchange, p.stock_symbol,
        p.created_at, p.updated_at, some t2] : List (Option String)) ++
        [([some n, p.primary_role, p.short_description,
        some (pyRstrip '/' dm), p.homepage_url, p.facebook_url,
        p.twitter_url, p.linkedin_url, p.api_url, p.city_name,
        p.region_name, p.country_code, p.stock_exchange, p.stock_symbol,
        p.created_at, p.updated_at, some t2] : List (Option String)).getD 3 none]).getD 3 none =
        some (pyRstrip '/' dm) from rfl]
    rw [find?_append_last _ _ _ hpred]
    rw [show (decide (rowDomain (⟨db.nextOrgId, [some n, p.primary_role, p.short_description,
        some (pyRstrip '/' dm), p.homepage_url, p.facebook_url,
        p.twitter_url, p.linkedin_url, p.api_url, p.city_name,
        p.region_name, p.country_code, p.stock_exchange, p.stock_symbol,
        p.created_at, p.updated_at], some t1⟩ : OrgRow) = some (pyRstrip '/' dm))) = true from by
      simp [rowDomain]]
    rw [show List.take 16 (([some n, p.primary_role, p.short_description,
        some (pyRstrip '/' dm), p.homepage_url, p.facebook_url,
        p.twitter_url, p.linkedin_url, p.api_url, p.city_name,
        p.region_name, p.country_code, p.stock_exchange, p.stock_symbol,
        p.created_at, p.updated_at, some t2] : List (Option String)) ++
        [([some n, p.primary_role, p.short_description,
        some (pyRstrip '/' dm), p.homepage_url, p.facebook_url,
        p.twitter_url, p.linkedin_url, p.api_url, p.city_name,
        p.region_name, p.country_code, p.stock_exchange, p.stock_symbol,
        p.created_at, p.updated_at, some t2] : List (Option String)).getD 3 none]) =
        ([some n, p.primary_role, p.short_description,
        some (pyRstrip '/' dm), p.homepage_url, p.facebook_url,
        p.twitter_url, p.linkedin_url, p.api_url, p.city_name,
        p.region_name, p.country_code, p.stock_exchange, p.stock_symbol,
        p.created_at, p.updated_at] : List (Option String)) from rfl]
    simp
  have hmem2 : ∀ (oX : Option Nat) (lX : Nat),
      some (pyRstrip '/' dm) ∈ get_already_stored
        (do_store_part_2 (do_store_part_1 db [some n, p.primary_role, p.short_description,
        some (pyRstrip '/' dm), p.homepage_url, p.facebook_url,
        p.twitter_url, p.linkedin_url, p.api_url, p.city_name,
        p.region_name, p.country_code, p.stock_exchange, p.stock_symbol,
        p.created_at, p.updated_at, some t1]).1 oX lX).1 := by
    intro oX lX
    show some (pyRstrip '/' dm) ∈ (db.orgs ++ [(⟨db.nextOrgId, [some n, p.primary_role, p.short_description,
        some (pyRstrip '/' dm), p.homepage_url, p.facebook_url,
        p.twitter_url, p.linkedin_url, p.api_url, p.city_name,
        p.region_name, p.country_code, p.stock_exchange, p.stock_symbol,
        p.created_at, p.updated_at], some t1⟩ : OrgRow)]).map rowDomain
    refine List.mem_map.mpr ⟨(⟨db.nextOrgId, [some n, p.primary_role, p.short_description,
        some (pyRstrip '/' dm), p.homepage_url, p.facebook_url,
        p.twitter_url, p.linkedin_url, p.api_url, p.city_name,
        p.region_name, p.country_code, p.stock_exchange, p.stock_symbol,
        p.created_at, p.updated_at], some t1⟩ : OrgRow), ?_, rfl⟩
    simp
  have hrun1 : store_one_response db p company t1 =
      some ⟨(do_store_part_2 (do_store_part_1 db [some n, p.primary_role, p.short_description,
        some (pyRstrip '/' dm), p.homepage_url, p.facebook_url,
        p.twitter_url, p.linkedin_url, p.api_url, p.city_name,
        p.region_name, p.country_code, p.stock_exchange, p.stock_symbol,
        p.created_at, p.updated_at, some t1]).1 (get_organization_id (do_store_part_1 db [some n, p.primary_role, p.short_description,
        some (pyRstrip '/' dm), p.homepage_url, p.facebook_url,
        p.twitter_url, p.linkedin_url, p.api_url, p.city_name,
        p.region_name, p.country_code, p.stock_exchange, p.stock_symbol,
        p.created_at, p.updated_at, some t1]).1 p) ((get_license_contact_details_id_list (do_store_part_1 db [some n, p.primary_role, p.short_description,
        some (pyRstrip '/' dm), p.homepage_url, p.facebook_url,
        p.twitter_url, p.linkedin_url, p.api_url, p.city_name,
        p.region_name, p.country_code, p.stock_exchange, p.stock_symbol,
        p.created_at, p.updated_at, some t1]).1 company).getD 0 0)).1, true, 1, 1, 1, 0, 1, 0⟩ := by
    unfold store_one_response
    rw [hguard, hsetup1]
    simp only [Bool.false_eq_true, if_false]
    rw [hgetd, if_neg hmem1]
    rw [if_pos (hcond1 _)]
    rw [if_pos (hcond2 _ _)]
  have hrun2 : store_one_response (do_store_part_2 (do_store_part_1 db [some n, p.primary_role, p.short_description,
        some (pyRstrip '/' dm), p.homepage_url, p.facebook_url,
        p.twitter_url, p.linkedin_url, p.api_url, p.city_name,
        p.region_name, p.country_code, p.stock_exchange, p.stock_symbol,
        p.created_at, p.updated_at, some t1]).1 (get_organization_id (do_store_part_1 db [some n, p.primary_role, p.short_description,
        some (pyRstrip '/' dm), p.homepage_url, p.facebook_url,
        p.twitter_url, p.linkedin_url, p.api_url, p.city_name,
        p.region_name, p.country_code, p.stock_exchange, p.stock_symbol,
        p.created_at, p.updated_at, some t1]).1 p) ((get_license_contact_details_id_list (do_store_part_1 db [some n, p.primary_role, p.short_description,
        some (pyRstrip '/' dm), p.homepage_url, p.facebook_url,
        p.twitter_url, p.linkedin_url, p.api_url, p.city_name,
        p.region_name, p.country_code, p.stock_exchange, p.stock_symbol,
        p.created_at, p.updated_at, some t1]).1 company).getD 0 0)).1 p company t2 =
      some ⟨(do_store_part_2 (do_store_part_1 db [some n, p.primary_role, p.short_description,
        some (pyRstrip '/' dm), p.homepage_url, p.facebook_url,
        p.twitter_url, p.linkedin_url, p.api_url, p.city_name,
        p.region_name, p.country_code, p.stock_exchange, p.stock_symbol,
        p.created_at, p.updated_at, some t1]).1 (get_organization_id (do_store_part_1 db [some n, p.primary_role, p.short_description,
        some (pyRstrip '/' dm), p.homepage_url, p.facebook_url,
        p.twitter_url, p.linkedin_url, p.api_url, p.city_name,
        p.region_name, p.country_code, p.stock_exchange, p.stock_symbol,
        p.created_at, p.updated_at, some t1]).1 p) ((get_license_contact_details_id_list (do_store_part_1 db [some n, p.primary_role, p.short_description,
        some (pyRstrip '/' dm), p.homepage_url, p.facebook_url,
        p.twitter_url, p.linkedin_url, p.api_url, p.city_name,
        p.region_name, p.country_code, p.stock_exchange, p.stock_symbol,
        p.created_at, p.updated_at, some t1]).1 company).getD 0 0)).1, false, 0, 1, 0, 0, 0, 0⟩ := by
    unfold store_one_response
    rw [hguard, hsetup2]
    simp only [Bool.false_eq_true, if_false]
    rw [hgetd2]
    rw [if_pos (hmem2 _ _)]
    rw [hupd _ rfl]
  exact ⟨_, _, hrun1, rfl, rfl, rfl, rfl, hrun2, rfl, rfl, rfl, rfl, rfl, rfl, rfl⟩


/-- Claim C9: after an INSERT, when the linkage lookup on company name yields
zero or more than one `pn_license_contact_details` candidate, or the link
UPDATE touches no row, the just-inserted organization row is deleted again
(`remove_company_from_orgs`), the record is not counted as stored, and a
subsequent existence check (`get_already_stored`) for its domain is false. -/
theorem c9_theorem (db : DB) (p : Props) (company t1 n dm : String)
    (hn : p.name = some n) (hn2 : n ≠ "")
    (hdm : p.domain = some dm) (hdm2 : dm ≠ "")
    (hfresh : ∀ r ∈ db.orgs, rowDomain r ≠ some (pyRstrip '/' dm))
    (hname : ∀ r ∈ db.orgs, rowName r ≠ some n)
    (hnolink : ∀ l ∈ db.licenses, l.orgId ≠ some db.nextOrgId)
    (hfail : (db.licContacts.filter (fun c => c.company = some company)).length ≠ 1 ∨
      (db.licenses.filter (fun l =>
        l.licCtId = (get_license_contact_details_id_list db company).getD 0 0)).length = 0) :
    ∃ res : StoreResult,
      store_one_response db p company t1 = some res ∧
      res.ret = false ∧ res.ctStoredDelta = 0 ∧ res.inserts = 1 ∧
      res.deletes = 1 ∧
      some (pyRstrip '/' dm) ∉ get_already_stored res.db := by
  have hguard : (pyFalsy p.name || pyFalsy p.domain) = false := by
    simp [pyFalsy, hn, hdm, hn2, hdm2]
  have hsetup1 : setup_data_item_org t1 p = some [some n, p.primary_role, p.short_description,
        some (pyRstrip '/' dm), p.homepage_url, p.facebook_url,
        p.twitter_url, p.linkedin_url, p.api_url, p.city_name,
        p.region_name, p.country_code, p.stock_exchange, p.stock_symbol,
        p.created_at, p.updated_at, some t1] := by
    simp [setup_data_item_org, hdm, hn]
  have hgetd : ([some n, p.primary_role, p.short_description,
        some (pyRstrip '/' dm), p.homepage_url, p.facebook_url,
        p.twitter_url, p.linkedin_url, p.api_url, p.city_name,
        p.region_name, p.country_code, p.stock_exchange, p.stock_symbol,
        p.created_at, p.updated_at, some t1] : List (Option String)).getD 3 none =
      some (pyRstrip '/' dm) := rfl
  have hmem1 : ¬ ((some (pyRstrip '/' dm)) ∈ get_already_stored db) := by
    simp only [get_already_stored, List.mem_map, not_exists]
    intro r hcontra
    exact hfresh r hcontra.1 hcontra.2
  by_cases hl1 : (db.licContacts.filter (fun c => c.company = some company)).length = 1
  · have hlink0 : (db.licenses.filter (fun l =>
        l.licCtId = (get_license_contact_details_id_list db company).getD 0 0)).length = 0 := by
      rcases hfail with hf | hf
      · exact absurd hl1 hf
      · exact hf
    have hlempty : ∀ y ∈ db.licenses,
        ¬ (y.licCtId = (get_license_contact_details_id_list db company).getD 0 0) := by
      have h0 := List.filter_eq_nil_iff.mp (List.length_eq_zero.mp hlink0)
      intro y hy
      simpa using h0 y hy
    have hlicmap : ((do_store_part_2 (do_store_part_1 db [some n, p.primary_role, p.short_description,
        some (pyRstrip '/' dm), p.homepage_url, p.facebook_url,
        p.twitter_url, p.linkedin_url, p.api_url, p.city_name,
        p.region_name, p.country_code, p.stock_exchange, p.stock_symbol,
        p.created_at, p.updated_at, some t1]).1 (get_organization_id (do_store_part_1 db [some n, p.primary_role, p.short_description,
        some (pyRstrip '/' dm), p.homepage_url, p.facebook_url,
        p.twitter_url, p.linkedin_url, p.api_url, p.city_name,
        p.region_name, p.country_code, p.stock_exchange, p.stock_symbol,
        p.created_at, p.updated_at, some t1]).1 p) ((get_license_contact_details_id_list (do_store_part_1 db [some n, p.primary_role, p.short_description,
        some (pyRstrip '/' dm), p.homepage_url, p.facebook_url,
        p.twitter_url, p.linkedin_url, p.api_url, p.city_name,
        p.region_name, p.country_code, p.stock_exchange, p.stock_symbol,
        p.created_at, p.updated_at, some t1]).1 company).getD 0 0)).1 : DB).licenses = db.licenses := by
      show db.licenses.map _ = db.licenses
      exact map_update_id _ _ db.licenses hlempty
    have hcond1 : (get_license_contact_details_id_list (do_store_part_1 db [some n, p.primary_role, p.short_description,
        some (pyRstrip '/' dm), p.homepage_url, p.facebook_url,
        p.twitter_url, p.linkedin_url, p.api_url, p.city_name,
        p.region_name, p.country_code, p.stock_exchange, p.stock_symbol,
        p.created_at, p.updated_at, some t1]).1 company).length = 1 := by
      simpa [get_license_contact_details_id_list, do_store_part_1] using hl1
    have hcond2 : ¬ ((do_store_part_2 (do_store_part_1 db [some n, p.primary_role, p.short_description,
        some (pyRstrip '/' dm), p.homepage_url, p.facebook_url,
        p.twitter_url, p.linkedin_url, p.api_url, p.city_name,
        p.region_name, p.country_code, p.stock_exchange, p.stock_symbol,
        p.created_at, p.updated_at, some t1]).1 (get_organization_id (do_store_part_1 db [some n, p.primary_role, p.short_description,
        some (pyRstrip '/' dm), p.homepage_url, p.facebook_url,
        p.twitter_url, p.linkedin_url, p.api_url, p.city_name,
        p.region_name, p.country_code, p.stock_exchange, p.stock_symbol,
        p.created_at, p.updated_at, some t1]).1 p) ((get_license_contact_details_id_list (do_store_part_1 db [some n, p.primary_role, p.short_description,
        some (pyRstrip '/' dm), p.homepage_url, p.facebook_url,
        p.twitter_url, p.linkedin_url, p.api_url, p.city_name,
        p.region_name, p.country_code, p.stock_exchange, p.stock_symbol,
        p.created_at, p.updated_at, some t1]).1 company).getD 0 0)).2 ≠ 0) := by
      simp only [do_store_part_2, do_store_part_1, ne_eq, not_not]
      exact_mod_cast hlink0
    have hrem := remove_freshly_inserted db p t1 n dm hname ((do_store_part_2 (do_store_part_1 db [some n, p.primary_role, p.short_description,
        some (pyRstrip '/' dm), p.homepage_url, p.facebook_url,
        p.twitter_url, p.linkedin_url, p.api_url, p.city_name,
        p.region_name, p.country_code, p.stock_exchange, p.stock_symbol,
        p.created_at, p.updated_at, some t1]).1 (get_organization_id (do_store_part_1 db [some n, p.primary_role, p.short_description,
        some (pyRstrip '/' dm), p.homepage_url, p.facebook_url,
        p.twitter_url, p.linkedin_url, p.api_url, p.city_name,
        p.region_name, p.country_code, p.stock_exchange, p.stock_symbol,
        p.created_at, p.updated_at, some t1]).1 p) ((get_license_contact_details_id_list (do_store_part_1 db [some n, p.primary_role, p.short_description,
        some (pyRstrip '/' dm), p.homepage_url, p.facebook_url,
        p.twitter_url, p.linkedin_url, p.api_url, p.city_name,
        p.region_name, p.country_code, p.stock_exchange, p.stock_symbol,
        p.created_at, p.updated_at, some t1]).1 company).getD 0 0)).1 : DB)
      rfl (by rw [hlicmap]; exact hnolink)
    have hrun : store_one_response db p company t1 =
        some ⟨{ ((do_store_part_2 (do_store_part_1 db [some n, p.primary_role, p.short_description,
        some (pyRstrip '/' dm), p.homepage_url, p.facebook_url,
        p.twitter_url, p.linkedin_url, p.api_url, p.city_name,
        p.region_name, p.country_code, p.stock_exchange, p.stock_symbol,
        p.created_at, p.updated_at, some t1]).1 (get_organization_id (do_store_part_1 db [some n, p.primary_role, p.short_description,
        some (pyRstrip '/' dm), p.homepage_url, p.facebook_url,
        p.twitter_url, p.linkedin_url, p.api_url, p.city_name,
        p.region_name, p.country_code, p.stock_exchange, p.stock_symbol,
        p.created_at, p.updated_at, some t1]).1 p) ((get_license_contact_details_id_list (do_store_part_1 db [some n, p.primary_role, p.short_description,
        some (pyRstrip '/' dm), p.homepage_url, p.facebook_url,
        p.twitter_url, p.linkedin_url, p.api_url, p.city_name,
        p.region_name, p.country_code, p.stock_exchange, p.stock_symbol,
        p.created_at, p.updated_at, some t1]).1 company).getD 0 0)).1 : DB) with orgs := db.orgs }, false, 0, 1, 1, 0, 1, 1⟩ := by
      unfold store_one_response
      rw [hguard, hsetup1]
      simp only [Bool.false_eq_true, if_false]
      rw [hgetd, if_neg hmem1]
      rw [if_pos hcond1]
      rw [if_neg hcond2]
      rw [hn, hrem]
    exact ⟨_, hrun, rfl, rfl, rfl, rfl, hmem1⟩
  · have hcond1 : ¬ ((get_license_contact_details_id_list (do_store_part_1 db [some n, p.primary_role, p.short_description,
        some (pyRstrip '/' dm), p.homepage_url, p.facebook_url,
        p.twitter_url, p.linkedin_url, p.api_url, p.city_name,
        p.region_name, p.country_code, p.stock_exchange, p.stock_symbol,
        p.created_at, p.updated_at, some t1]).1 company).length = 1) := by
      intro hc
      exact hl1 (by simpa [get_license_contact_details_id_list, do_store_part_1] using hc)
    have hrem := remove_freshly_inserted db p t1 n dm hname ((do_store_part_1 db [some n, p.primary_role, p.short_description,
        some (pyRstrip '/' dm), p.homepage_url, p.facebook_url,
        p.twitter_url, p.linkedin_url, p.api_url, p.city_name,
        p.region_name, p.country_code, p.stock_exchange, p.stock_symbol,
        p.created_at, p.updated_at, some t1]).1 : DB)
      rfl hnolink
    have hrun : store_one_response db p company t1 =
        some ⟨{ ((do_store_part_1 db [some n, p.primary_role, p.short_description,
        some (pyRstrip '/' dm), p.homepage_url, p.facebook_url,
        p.twitter_url, p.linkedin_url, p.api_url, p.city_name,
        p.region_name, p.country_code, p.stock_exchange, p.stock_symbol,
        p.created_at, p.updated_at, some t1]).1 : DB) with orgs := db.orgs }, false, 0, 1, 1, 0, 0, 1⟩ := by
      unfold store_one_response
      rw [hguard, hsetup1]
      simp only [Bool.false_eq_true, if_false]
      rw [hgetd, if_neg hmem1]
      rw [if_neg hcond1]
      rw [hn, hrem]
    exact ⟨_, hrun, rfl, rfl, rfl, rfl, hmem1⟩

/-- Claim C8 witness data: an empty organization table, one matching license
contact, one linkable license row. -/
theorem c8_witness :
    ((⟨[], [⟨7, some "Acme"⟩], [⟨7, none⟩], 1⟩ : DB).licContacts.filter
        (fun c => c.company = some "Acme")).length = 1 ∧
    ∃ res1 res2 : StoreResult,
      store_one_response ⟨[], [⟨7, some "Acme"⟩], [⟨7, none⟩], 1⟩
        ⟨some "Acme Corp", some "acme.com/", some "company", none, none,
         none, none, none, none, none, none, none, none, none, some "c",
         some "u"⟩ "Acme" "t1" = some res1 ∧
      res1.ret = true ∧ res1.inserts = 1 ∧ res1.orgUpdates = 0 ∧
      res1.ctStoredDelta = 1 ∧
      store_one_response res1.db
        ⟨some "Acme Corp", some "acme.com/", some "company", none, none,
         none, none, none, none, none, none, none, none, none, some "c",
         some "u"⟩ "Acme" "t2" = some res2 ∧
      res2.db = res1.db ∧ res2.ret = false ∧ res2.ctStoredDelta = 0 ∧
      res2.inserts = 0 ∧ res2.orgUpdates = 0 ∧ res2.licUpdates = 0 ∧
      res2.deletes = 0 :=
  ⟨by decide,
   c8_theorem ⟨[], [⟨7, some "Acme"⟩], [⟨7, none⟩], 1⟩
     ⟨some "Acme Corp", some "acme.com/", some "company", none, none, none,
      none, none, none, none, none, none, none, none, some "c", some "u"⟩
     "Acme" "t1" "t2" "Acme Corp" "acme.com/" rfl (by decide) rfl (by decide)
     (by decide) (by decide) (by decide)⟩

/-- Claim C9 witness data: an empty organization table and no license-contact
candidate at all (zero linkage candidates). -/
theorem c9_witness :
    ((⟨[], [], [], 1⟩ : DB).licContacts.filter
        (fun c => c.company = some "Acme")).length ≠ 1 ∧
    ∃ res : StoreResult,
      store_one_response ⟨[], [], [], 1⟩
        ⟨some "Acme Corp", some "acme.com/", some "company", none, none,
         none, none, none, none, none, none, none, none, none, some "c",
         some "u"⟩ "Acme" "t1" = some res ∧
      res.ret = false ∧ res.ctStoredDelta = 0 ∧ res.inserts = 1 ∧
      res.deletes = 1 ∧
      some (pyRstrip '/' "acme.com/") ∉ get_already_stored res.db :=
  ⟨by decide,
   c9_theorem ⟨[], [], [], 1⟩
     ⟨some "Acme Corp", some "acme.com/", some "company", none, none, none,
      none, none, none, none, none, none, none, none, some "c", some "u"⟩
     "Acme" "t1" "Acme Corp" "acme.com/" rfl (by decide) rfl (by decide)
     (by decide) (by decide) (by decide) (Or.inl (by decide))⟩
